import Mathlib

/-!
# Verification of the oboewrapper audio player (`blophy-audio.cpp` / `blophy-audio.h`)

A shallow embedding of the `UnityAudioPlayer` class and its C interface.
C++ `float` fields and arithmetic are modelled with exact rationals (`ℚ`);
C++ `int` fields with `ℤ` (every C++ `%` on `int` is truncated division,
embedded as `Int.tmod`).  The external collaborators (the oboe stream layer,
the asset/file loaders and the libnyquist decoder) are modelled as explicit
parameters, so every definition below transcribes only the control flow of
the repository's own source.
-/

namespace OboeWrapper

/-- The `AudioState` enum of `blophy-audio.h`. -/
inductive AudioState where
  | idle
  | playing
  | paused
  | stopped
deriving DecidableEq, Repr

/-- `oboe::DataCallbackResult`, restricted to the two values the source returns. -/
inductive DataCallbackResult where
  | Continue
  | Stop
deriving DecidableEq, Repr

/-- The slice of `nqr::AudioData` that `loadAudioData` reads: sample rate,
channel count and the decoded interleaved samples. -/
structure AudioDataRec where
  sampleRate : ℤ
  channelCount : ℤ
  samples : List ℚ
deriving DecidableEq, Repr

/-- The fields of class `UnityAudioPlayer` (header lines 101–118).
`m_audioStream` is the retained stream handle: `some id` models a non-null
`std::shared_ptr<oboe::AudioStream>` holding the device stream with that id,
`none` models a null pointer.  The thread/mutex/condition members of the
delay machinery are modelled separately (see `DelaySys`); of them only the
plain data members `m_delayTime` and `m_delayCancelled` appear here. -/
structure Player where
  m_state : AudioState
  m_currentTime : ℚ
  m_volume : ℚ
  m_loop : Bool
  m_clipPath : String
  m_delayTime : ℚ
  m_audioStream : Option ℕ
  m_audioData : Option AudioDataRec
  m_interleavedData : List ℚ
  m_sampleRate : ℤ
  m_channels : ℤ
  m_totalFrames : ℤ
  m_delayCancelled : Bool
deriving DecidableEq, Repr

/-- The `UnityAudioPlayer` constructor (lines 37–48): initial field values. -/
def initPlayer : Player where
  m_state := .idle
  m_currentTime := 0
  m_volume := 1
  m_loop := false
  m_clipPath := ""
  m_delayTime := 0
  m_audioStream := none
  m_audioData := none
  m_interleavedData := []
  m_sampleRate := 48000
  m_channels := 2
  m_totalFrames := 0
  m_delayCancelled := false

/-- `getMusicLength` (line 343): `m_totalFrames / (float)m_sampleRate`. -/
def getMusicLength (p : Player) : ℚ :=
  (p.m_totalFrames : ℚ) / (p.m_sampleRate : ℚ)

/-- `getCurrentTime` (line 158). -/
def getCurrentTime (p : Player) : ℚ :=
  p.m_currentTime

/-- `setCurrentTime` (line 162): `std::max(0.0f, std::min(time, getMusicLength()))`. -/
def setCurrentTime (p : Player) (time : ℚ) : Player :=
  { p with m_currentTime := max 0 (min time (getMusicLength p)) }

/-- `offsetTime` (line 166): `setCurrentTime(m_currentTime + offset)`. -/
def offsetTime (p : Player) (offset : ℚ) : Player :=
  setCurrentTime p (p.m_currentTime + offset)

/-- `resetTime` (line 170). -/
def resetTime (p : Player) : Player :=
  { p with m_currentTime := 0 }

/-- `setVolume` (line 182): `m_volume = std::max(0.0f, std::min(1.0f, volume))`. -/
def setVolume (p : Player) (volume : ℚ) : Player :=
  { p with m_volume := max 0 (min 1 volume) }

/-- `getVolume` (line 186). -/
def getVolume (p : Player) : ℚ :=
  p.m_volume

/-- `setLoop` (line 190). -/
def setLoop (p : Player) (loop : Bool) : Player :=
  { p with m_loop := loop }

/-- `getLoop` (line 194). -/
def getLoop (p : Player) : Bool :=
  p.m_loop

/-- `isPlaying` (line 198). -/
def isPlaying (p : Player) : Bool :=
  p.m_state = .playing

/-- `getState` (line 202). -/
def getState (p : Player) : AudioState :=
  p.m_state

/-- `pause` (lines 136–141): only acts when a stream is retained and the
state is Playing; `m_audioStream->pause()` itself is a device call with no
effect on the player's fields. -/
def pause (p : Player) : Player :=
  if p.m_audioStream.isSome ∧ p.m_state = .playing then
    { p with m_state := .paused }
  else p

/-- `stop` (lines 143–149): guarded only on the retained stream handle;
stops the device stream (external), sets the state to Stopped and resets the
position to 0.  The handle itself is kept. -/
def stop (p : Player) : Player :=
  if p.m_audioStream.isSome then
    { p with m_state := .stopped, m_currentTime := 0 }
  else p

/-- `unpause` (lines 151–156): when a stream is retained and the state is
Paused, calls `m_audioStream->start()` (whose result the source ignores) and
sets the state to Playing. -/
def unpause (p : Player) : Player :=
  if p.m_audioStream.isSome ∧ p.m_state = .paused then
    { p with m_state := .playing }
  else p

/-- The device-stream bookkeeping of the oboe layer, as far as the source
observes it: a fresh id per successful `openStream` and the ids of device
streams that have been opened and not closed.  Per oboe's contract a stream
is closed only by an explicit `close()`; releasing the last
`std::shared_ptr` to it does not close the device stream. -/
structure OboeWorld where
  nextId : ℕ
  openStreams : List ℕ
deriving DecidableEq, Repr

/-- The empty oboe world: no stream opened yet. -/
def initWorld : OboeWorld where
  nextId := 0
  openStreams := []

/-- `play` (lines 95–123).  `openOk` and `startOk` are the results the oboe
collaborator returns for `builder.openStream(m_audioStream)` and
`m_audioStream->requestStart()`.  `openStream(shared_ptr&)` first resets the
passed handle and sets it only on success (so on open failure no stream is
retained); on success a fresh device stream is opened.  The state is set to
Playing only when `requestStart` succeeds; on start failure the freshly
opened stream stays retained, for the source neither closes nor resets it. -/
def play (openOk startOk : Bool) (p : Player) (w : OboeWorld) : Player × OboeWorld :=
  if p.m_state = .paused then
    (unpause p, w)
  else
    if openOk then
      let sid := w.nextId
      let p' := { p with m_audioStream := some sid }
      let w' : OboeWorld := { nextId := w.nextId + 1, openStreams := w.openStreams ++ [sid] }
      if startOk then ({ p' with m_state := .playing }, w') else (p', w')
    else
      ({ p with m_audioStream := none }, w)

/-! ## Clip loading (`setClip` / `loadAudioData`) -/

/-- The external collaborators of `loadAudioData`: the Android asset loader
`loadAssetData` (line 63) and the filesystem loader `loadFileData` (line
278), both of which signal failure by returning an empty byte buffer, and
the libnyquist decoder invocation `loader.Load` (line 323), whose thrown
exceptions are modelled as `none`. -/
structure LoadEnv where
  loadAssetData : String → List ℕ
  loadFileData : String → List ℕ
  decode : String → List ℕ → Option AudioDataRec

/-- The byte-source dispatch of `loadAudioData` (lines 301–312):
`filePath.find("assets/") == 0` selects the asset loader, with the
seven-character `assets/` marker dropped; otherwise the filesystem loader
runs on the full path. -/
def loadBytes (env : LoadEnv) (filePath : String) : List ℕ :=
  if filePath.startsWith "assets/" then env.loadAssetData (filePath.drop 7)
  else env.loadFileData filePath

/-- `loadAudioData` (lines 299–341).  On an empty byte buffer it fails
before touching any field.  `m_audioData = std::make_unique<nqr::AudioData>()`
replaces the scratch decoder buffer *before* `Load` is called, so a throwing
decode (modelled by `decode … = none`) leaves a fresh empty `AudioData`
there but touches nothing else.  On success the clip metadata is taken from
the decoded data — `m_totalFrames = samples.size() / m_channels` is a
`size_t` division, modelled as `ℕ` division (the decoder's channel count is
nonnegative; a zero channel count would be division by zero in C++) — and
`m_interleavedData = std::move(m_audioData->samples)` moves the samples out,
leaving the scratch buffer's sample vector empty. -/
def loadAudioData (env : LoadEnv) (p : Player) (filePath : String) : Player × Bool :=
  let fileData := loadBytes env filePath
  if fileData.isEmpty then
    (p, false)
  else
    match env.decode filePath fileData with
    | none => ({ p with m_audioData := some ⟨0, 0, []⟩ }, false)
    | some ad =>
        ({ p with
            m_audioData := some { ad with samples := [] }
            m_sampleRate := ad.sampleRate
            m_channels := ad.channelCount
            m_totalFrames := ((ad.samples.length / ad.channelCount.toNat : ℕ) : ℤ)
            m_interleavedData := ad.samples },
         true)

/-- `setClip` (lines 90–93): unconditionally overwrites `m_clipPath`, then
delegates to `loadAudioData`. -/
def setClip (env : LoadEnv) (p : Player) (clipPath : String) : Player × Bool :=
  loadAudioData env { p with m_clipPath := clipPath } clipPath

/-! ## The audio callback (`onAudioReady`) -/

/-- `static_cast<int>` on a C++ `float`: truncation toward zero. -/
def cppTrunc (q : ℚ) : ℤ :=
  if 0 ≤ q then ⌊q⌋ else ⌈q⌉

/-- One read of the interleaved sample array, `m_interleavedData[idx]`.
The callback only ever reads at indices `0 ≤ idx < length` (claim C9); the
`getD` default is never exercised there. -/
def readSample (data : List ℚ) (idx : ℤ) : ℚ :=
  data.getD idx.toNat 0

/-- The sample of the interleaved array at a given frame and channel. -/
def sourceSample (data : List ℚ) (channels frame channel : ℤ) : ℚ :=
  readSample data (frame * channels + channel)

/-- `generateSilence` (lines 361–365): `numFrames * channels` zero samples. -/
def generateSilence (numFrames channels : ℤ) : List ℚ :=
  List.replicate (numFrames * channels).toNat 0

/-- The main copy loop of `onAudioReady` (lines 229–237): for each frame
`i < framesToCopy`, `srcIndex = (currentFrame + i) * m_channels`, and for
each output channel `c`, the sample at `srcIndex + (c % m_channels)` scaled
by the volume, written in interleaved order. -/
def copyFrames (data : List ℚ) (volume : ℚ) (channels outputChannels : ℤ)
    (currentFrame framesToCopy : ℤ) : List ℚ :=
  (List.range framesToCopy.toNat).flatMap fun (i : ℕ) =>
    (List.range outputChannels.toNat).map fun (c : ℕ) =>
      readSample data ((currentFrame + (i : ℤ)) * channels + (c : ℤ).tmod channels) * volume

/-- The loop-wrap copy of `onAudioReady` (lines 245–252): frame `i` of the
wrap reads source frame `i % m_totalFrames`. -/
def copyLoopFrames (data : List ℚ) (volume : ℚ) (totalFrames channels outputChannels : ℤ)
    (remainingFrames : ℤ) : List ℚ :=
  (List.range remainingFrames.toNat).flatMap fun (i : ℕ) =>
    (List.range outputChannels.toNat).map fun (c : ℕ) =>
      readSample data ((i : ℤ).tmod totalFrames * channels + (c : ℤ).tmod channels) * volume

/-- The result of one `onAudioReady` invocation: the updated player, the
returned `oboe::DataCallbackResult`, and the samples written to the output
buffer in order. -/
structure CallbackResult where
  player : Player
  result : DataCallbackResult
  output : List ℚ
deriving DecidableEq, Repr

/-- `onAudioReady` (lines 206–270).  `streamSampleRate` and
`streamChannels` are `audioStream->getSampleRate()` and
`audioStream->getChannelCount()` of the stream the callback is bound to
(`play` builds the stream with the clip's own rate and channel count). -/
def onAudioReady (streamSampleRate streamChannels : ℤ) (numFrames : ℤ)
    (p : Player) : CallbackResult :=
  if p.m_state ≠ .playing ∨ p.m_interleavedData.isEmpty then
    ⟨p, .Continue, generateSilence numFrames streamChannels⟩
  else
    let frameTime : ℚ := (numFrames : ℚ) / (streamSampleRate : ℚ)
    let outputChannels := streamChannels
    let currentFrame := cppTrunc (p.m_currentTime * (p.m_sampleRate : ℚ))
    let framesRemaining := p.m_totalFrames - currentFrame
    let framesToCopy := min numFrames framesRemaining
    let copied :=
      if 0 < framesToCopy then
        copyFrames p.m_interleavedData p.m_volume p.m_channels outputChannels
          currentFrame framesToCopy
      else []
    if framesToCopy < numFrames then
      if p.m_loop then
        let remainingFrames := numFrames - framesToCopy
        let wrapped :=
          copyLoopFrames p.m_interleavedData p.m_volume p.m_totalFrames p.m_channels
            outputChannels remainingFrames
        ⟨{ p with m_currentTime := (remainingFrames : ℚ) / (p.m_sampleRate : ℚ) },
          .Continue, copied ++ wrapped⟩
      else
        let out := copied ++ generateSilence (numFrames - framesToCopy) outputChannels
        let p' := { p with m_currentTime := p.m_currentTime + frameTime }
        if getMusicLength p' ≤ p'.m_currentTime then
          ⟨{ p' with m_state := .stopped }, .Stop, out⟩
        else
          ⟨p', .Continue, out⟩
    else
      ⟨{ p with m_currentTime := p.m_currentTime + frameTime }, .Continue, copied⟩

/-- The source indices read by the main copy loop, in read order. -/
def copyIndices (channels outputChannels currentFrame framesToCopy : ℤ) : List ℤ :=
  (List.range framesToCopy.toNat).flatMap fun (i : ℕ) =>
    (List.range outputChannels.toNat).map fun (c : ℕ) =>
      (currentFrame + (i : ℤ)) * channels + (c : ℤ).tmod channels

/-- The source indices read by the loop-wrap copy, in read order. -/
def loopIndices (totalFrames channels outputChannels remainingFrames : ℤ) : List ℤ :=
  (List.range remainingFrames.toNat).flatMap fun (i : ℕ) =>
    (List.range outputChannels.toNat).map fun (c : ℕ) =>
      (i : ℤ).tmod totalFrames * channels + (c : ℤ).tmod channels

/-- All indices at which one `onAudioReady` invocation reads
`m_interleavedData`, mirroring the callback's control flow. -/
def audioReadyIndices (streamChannels numFrames : ℤ) (p : Player) : List ℤ :=
  if p.m_state ≠ .playing ∨ p.m_interleavedData.isEmpty then []
  else
    let currentFrame := cppTrunc (p.m_currentTime * (p.m_sampleRate : ℚ))
    let framesRemaining := p.m_totalFrames - currentFrame
    let framesToCopy := min numFrames framesRemaining
    let copied :=
      if 0 < framesToCopy then
        copyIndices p.m_channels streamChannels currentFrame framesToCopy
      else []
    if framesToCopy < numFrames then
      if p.m_loop then
        copied ++ loopIndices p.m_totalFrames p.m_channels streamChannels (numFrames - framesToCopy)
      else copied
    else copied

/-! ## The delay scheduler (`playWithDelay` / `scheduleDelayedPlay`)

Logical wall-clock time is an explicit rational number of seconds.  A worker
thread spawned by `playWithDelay` is summarised by its spawn time and the
delay it reads from `m_delayTime` when its `wait_for` begins (the
interleaving in which the worker reaches `wait_for` before any later control
call overwrites `m_delayTime`). -/

/-- A pending `m_delayThread` worker: spawn time and the delay it waits. -/
structure DelayWorker where
  spawnTime : ℚ
  delay : ℚ
deriving DecidableEq, Repr

/-- `scheduleDelayedPlay` (lines 347–359), as observed at its join: if the
worker observes the cancellation flag it returns without firing (`none`);
otherwise its `wait_for` times out and it calls `play()` once, at
`spawnTime + delay` (`some` of that firing time).  In the two-call scenario
of claim C4 the flag is never true while a worker waits, since the only
writers are the constructor and `playWithDelay`, all of which write
`false` (the destructor, which writes `true`, is not involved). -/
def scheduleDelayedPlayRun (cancelled : Bool) (w : DelayWorker) : Option ℚ :=
  if cancelled then none else some (w.spawnTime + w.delay)

/-- The delay subsystem of one player: its scalar fields, the pending
worker thread (`m_delayThread` when joinable), the trace of times at which a
worker fired `play()`, and the current wall-clock time. -/
structure DelaySys where
  player : Player
  pending : Option DelayWorker
  fires : List ℚ
  now : ℚ
deriving DecidableEq, Repr

/-- `playWithDelay` (lines 125–134), executed at wall-clock time `t`:
stores the delay, resets `m_delayCancelled` to `false`, then — *without any
cancellation* — joins a joinable prior worker.  Because the flag was just
set to `false`, the joined worker's wait times out and fires `play()` at its
own deadline; the caller blocks until then.  Finally the new worker is
spawned. -/
def playWithDelay (s : DelaySys) (t delay : ℚ) : DelaySys :=
  let pl := { s.player with m_delayTime := delay, m_delayCancelled := false }
  let base : DelaySys := { s with player := pl, now := t }
  let joined :=
    match base.pending with
    | none => base
    | some w =>
        match scheduleDelayedPlayRun pl.m_delayCancelled w with
        | none => { base with pending := none, now := max t w.spawnTime }
        | some ft => { base with pending := none, now := max t ft, fires := base.fires ++ [ft] }
  { joined with pending := some ⟨joined.now, delay⟩ }

/-- Run the still-pending worker (if any) to completion and collect every
time `play()` fired. -/
def drainFires (s : DelaySys) : List ℚ :=
  match s.pending with
  | none => s.fires
  | some w =>
      match scheduleDelayedPlayRun s.player.m_delayCancelled w with
      | none => s.fires
      | some ft => s.fires ++ [ft]

/-- A fresh delay subsystem over a newly constructed player at time 0. -/
def initDelaySys : DelaySys where
  player := initPlayer
  pending := none
  fires := []
  now := 0

/-! ## The concrete end-of-clip scenario of claim C1 -/

/-- The player of the concrete scenario: a loaded clip with
sampleRate 48000, 1 channel, 48000 total frames, volume 1, loop disabled,
in the Playing state at position 0. -/
def scenarioPlayer (data : List ℚ) : Player :=
  { initPlayer with
      m_state := .playing
      m_audioStream := some 0
      m_interleavedData := data
      m_sampleRate := 48000
      m_channels := 1
      m_totalFrames := 48000
      m_volume := 1
      m_loop := false
      m_currentTime := 0 }

/-- The player after one 512-frame callback on the scenario's stream
(sample rate 48000, 1 channel). -/
def stepCB (p : Player) : Player :=
  (onAudioReady 48000 1 512 p).player

/-- `n` consecutive 512-frame callbacks. -/
def stepN : ℕ → Player → Player
  | 0, p => p
  | n + 1, p => stepCB (stepN n p)

/-! ## Supporting lemmas -/

/-- `cppTrunc` agrees with the floor on nonnegative arguments. -/
theorem cppTrunc_eq_floor {q : ℚ} (h : 0 ≤ q) : cppTrunc q = ⌊q⌋ :=
  if_pos h

/-- Length of a rectangular block list (`R` frames of `C` channels). -/
theorem length_range_flatMap_map {α : Type} (R C : ℕ) (f : ℕ → ℕ → α) :
    ((List.range R).flatMap fun i => (List.range C).map (f i)).length = R * C := by
  induction R with
  | zero => simp
  | succ R ih =>
    rw [List.range_succ, List.flatMap_append, List.length_append, ih,
      List.flatMap_singleton, List.length_map, List.length_range]
    ring

/-- Element access in a rectangular block list: position `i * C + c` holds
the sample of frame `i`, channel `c`. -/
theorem getD_range_flatMap_map (R C : ℕ) (f : ℕ → ℕ → ℚ) (i c : ℕ)
    (hi : i < R) (hc : c < C) :
    ((List.range R).flatMap fun i => (List.range C).map (f i)).getD (i * C + c) 0 = f i c := by
  induction R with
  | zero => omega
  | succ R ih =>
    rw [List.range_succ, List.flatMap_append, List.getD_eq_getElem?_getD]
    rcases Nat.lt_or_ge i R with h | h
    · have hlt : i * C + c < ((List.range R).flatMap fun i => (List.range C).map (f i)).length := by
        rw [length_range_flatMap_map]
        calc i * C + c < i * C + C := by omega
        _ = (i + 1) * C := by ring
        _ ≤ R * C := Nat.mul_le_mul_right C h
      rw [List.getElem?_append_left hlt, ← List.getD_eq_getElem?_getD, ih h]
    · have hiR : i = R := by omega
      have hge : ((List.range R).flatMap fun i => (List.range C).map (f i)).length ≤ i * C + c := by
        rw [length_range_flatMap_map, hiR]
        omega
      rw [List.getElem?_append_right hge, length_range_flatMap_map, List.flatMap_singleton]
      have hidx : i * C + c - R * C = c := by rw [hiR]; omega
      rw [hidx, List.getElem?_map, List.getElem?_range hc]
      simp [hiR]

/-- The main copy loop writes `framesToCopy * outputChannels` samples. -/
theorem length_copyFrames (data : List ℚ) (volume : ℚ) (channels outputChannels : ℤ)
    (currentFrame framesToCopy : ℤ) :
    (copyFrames data volume channels outputChannels currentFrame framesToCopy).length
      = framesToCopy.toNat * outputChannels.toNat := by
  unfold copyFrames
  exact length_range_flatMap_map _ _ _

/-- The loop-wrap copy writes `remainingFrames * outputChannels` samples. -/
theorem length_copyLoopFrames (data : List ℚ) (volume : ℚ)
    (totalFrames channels outputChannels remainingFrames : ℤ) :
    (copyLoopFrames data volume totalFrames channels outputChannels remainingFrames).length
      = remainingFrames.toNat * outputChannels.toNat := by
  unfold copyLoopFrames
  exact length_range_flatMap_map _ _ _

/-- `generateSilence` writes `numFrames * channels` zeros. -/
theorem length_generateSilence (numFrames channels : ℤ) :
    (generateSilence numFrames channels).length = (numFrames * channels).toNat :=
  List.length_replicate _ _

/-- The main copy loop is exactly the volume-scaled read of the sources
enumerated by `copyIndices`. -/
theorem copyFrames_eq_map_copyIndices (data : List ℚ) (volume : ℚ)
    (channels outputChannels currentFrame framesToCopy : ℤ) :
    copyFrames data volume channels outputChannels currentFrame framesToCopy
      = (copyIndices channels outputChannels currentFrame framesToCopy).map
          fun idx => readSample data idx * volume := by
  unfold copyFrames copyIndices
  rw [List.map_flatMap]
  simp [List.map_map, Function.comp_def]

/-- The loop-wrap copy is exactly the volume-scaled read of the sources
enumerated by `loopIndices`. -/
theorem copyLoopFrames_eq_map_loopIndices (data : List ℚ) (volume : ℚ)
    (totalFrames channels outputChannels remainingFrames : ℤ) :
    copyLoopFrames data volume totalFrames channels outputChannels remainingFrames
      = (loopIndices totalFrames channels outputChannels remainingFrames).map
          fun idx => readSample data idx * volume := by
  unfold copyLoopFrames loopIndices
  rw [List.map_flatMap]
  simp [List.map_map, Function.comp_def]

/-! ## Claim theorems -/

/-- C8: for every `v`, `setVolume v` followed by `getVolume` returns exactly
`clamp(v, 0, 1)`, and `setVolume` changes no other field of the player. -/
theorem c8_setVolume_getVolume_clamp (p : Player) (v : ℚ) :
    getVolume (setVolume p v) = max 0 (min 1 v) ∧
    setVolume p v = { p with m_volume := max 0 (min 1 v) } :=
  ⟨rfl, rfl⟩

/-- C10: `stop()` on a player that retains no output stream is a complete
no-op — in particular the position, volume, loop flag and loaded clip are
unchanged and the position is not reset to 0. -/
theorem c10_stop_noop_without_stream (p : Player)
    (_hstate : p.m_state = .idle) (hstream : p.m_audioStream = none) :
    stop p = p := by
  simp [stop, hstream]

/-- Witness for C10 at the freshly constructed player. -/
theorem c10_stop_noop_without_stream_witness : stop initPlayer = initPlayer :=
  c10_stop_noop_without_stream initPlayer rfl rfl

/-- C3 fails on the code: `play()` has no special case for the Playing
state, so a second successful `play()` from Idle opens a second device
stream (the first is released without being closed) and replaces the
retained handle.  After two successful `play()` calls the world records two
open streams, not one, and the retained handle differs from the first
call's. -/
theorem c3_counterexample :
    (play true true (play true true initPlayer initWorld).1
        (play true true initPlayer initWorld).2).2.openStreams = [0, 1] ∧
    (play true true (play true true initPlayer initWorld).1
        (play true true initPlayer initWorld).2).2.openStreams.length ≠ 1 ∧
    (play true true initPlayer initWorld).1.m_state = .playing ∧
    (play true true (play true true initPlayer initWorld).1
        (play true true initPlayer initWorld).2).1.m_audioStream
      ≠ (play true true initPlayer initWorld).1.m_audioStream := by
  decide

/-- C3 (amended): `play()` while not Paused — in particular while already
Playing — is not a no-op: it opens a fresh device stream, retains its
handle, and on a successful start (re)enters the Playing state; the
previously opened stream is released but never closed, so each successful
`play()` adds one open stream to the world. -/
theorem c3_play_opens_fresh_stream (p : Player) (w : OboeWorld)
    (hp : p.m_state ≠ .paused) :
    (play true true p w).1.m_state = .playing ∧
    (play true true p w).1.m_audioStream = some w.nextId ∧
    (play true true p w).2.openStreams = w.openStreams ++ [w.nextId] ∧
    (play true true p w).2.nextId = w.nextId + 1 := by
  simp [play, hp]

/-- Witness for the amended C3 at a concrete Playing player. -/
theorem c3_play_opens_fresh_stream_witness :
    (play true true (play true true initPlayer initWorld).1
        (play true true initPlayer initWorld).2).1.m_state = .playing ∧
    (play true true (play true true initPlayer initWorld).1
        (play true true initPlayer initWorld).2).1.m_audioStream
      = some (play true true initPlayer initWorld).2.nextId ∧
    (play true true (play true true initPlayer initWorld).1
        (play true true initPlayer initWorld).2).2.openStreams
      = (play true true initPlayer initWorld).2.openStreams
          ++ [(play true true initPlayer initWorld).2.nextId] ∧
    (play true true (play true true initPlayer initWorld).1
        (play true true initPlayer initWorld).2).2.nextId
      = (play true true initPlayer initWorld).2.nextId + 1 :=
  c3_play_opens_fresh_stream (play true true initPlayer initWorld).1
    (play true true initPlayer initWorld).2 (by decide)

/-- C5 fails on the code for the start-failure case: when the stream opens
but `requestStart` fails, the state is indeed unchanged, but the freshly
opened stream stays retained by the player (`m_audioStream` is the new
handle, not null). -/
theorem c5_counterexample :
    (play true false initPlayer initWorld).1.m_state = initPlayer.m_state ∧
    (play true false initPlayer initWorld).1.m_audioStream = some 0 ∧
    (play true false initPlayer initWorld).1.m_audioStream ≠ none := by
  decide

/-- C5 (amended): if `play()` (invoked outside the Paused state) fails to
open the stream, the state is unchanged and no stream is retained; if it
opens the stream but fails to start it, the state is unchanged but the
newly opened stream remains retained by the player. -/
theorem c5_play_failure_state_unchanged (p : Player) (w : OboeWorld) (startOk : Bool)
    (hp : p.m_state ≠ .paused) :
    ((play false startOk p w).1.m_state = p.m_state ∧
      (play false startOk p w).1.m_audioStream = none ∧
      (play false startOk p w).2 = w) ∧
    ((play true false p w).1.m_state = p.m_state ∧
      (play true false p w).1.m_audioStream = some w.nextId) := by
  simp [play, hp]

/-- Witness for the amended C5 at the freshly constructed player. -/
theorem c5_play_failure_state_unchanged_witness :
    ((play false true initPlayer initWorld).1.m_state = initPlayer.m_state ∧
      (play false true initPlayer initWorld).1.m_audioStream = none ∧
      (play false true initPlayer initWorld).2 = initWorld) ∧
    ((play true false initPlayer initWorld).1.m_state = initPlayer.m_state ∧
      (play true false initPlayer initWorld).1.m_audioStream = some initWorld.nextId) :=
  c5_play_failure_state_unchanged initPlayer initWorld true (by decide)

/-- C4 fails on the code: `playWithDelay` resets `m_delayCancelled` to
`false` and then joins the prior worker *without cancelling it*, so the
prior timer runs to its timeout and fires `play()` at its original deadline
(blocking the second caller until then).  In the scenario
`playWithDelay(0.2)` at t=0 followed by `playWithDelay(0.5)` at t=0.05,
`play()` fires twice — at t=0.2 and at t=0.7 — not exactly once at ~0.55. -/
theorem c4_counterexample :
    drainFires (playWithDelay (playWithDelay initDelaySys 0 (1/5)) (1/20) (1/2))
      = [1/5, 7/10] ∧
    (drainFires (playWithDelay (playWithDelay initDelaySys 0 (1/5)) (1/20) (1/2))).length
      = 2 := by
  have hmax : max (1/20 : ℚ) (0 + 1/5) = 1/5 := by norm_num
  refine ⟨?_, ?_⟩
  · simp [drainFires, playWithDelay, initDelaySys, scheduleDelayedPlayRun, hmax]
    norm_num
  · simp [drainFires, playWithDelay, initDelaySys, scheduleDelayedPlayRun, hmax]

/-- C4 (amended): a new delayed-play request does join any prior pending
worker before starting its own timer, but it does not cancel it — the
cancellation flag is reset to `false` first — so the prior timer fires
`play()` at its own deadline during the join, and the new worker is spawned
only once the prior timer has fired. -/
theorem c4_playWithDelay_joins_without_cancel (s : DelaySys) (t delay : ℚ)
    (w : DelayWorker) (h : s.pending = some w) :
    (playWithDelay s t delay).fires = s.fires ++ [w.spawnTime + w.delay] ∧
    (playWithDelay s t delay).pending = some ⟨max t (w.spawnTime + w.delay), delay⟩ ∧
    (playWithDelay s t delay).player.m_delayCancelled = false := by
  simp [playWithDelay, h, scheduleDelayedPlayRun]

/-- Witness for the amended C4 at the two-call scenario. -/
theorem c4_playWithDelay_joins_without_cancel_witness :
    (playWithDelay (playWithDelay initDelaySys 0 (1/5)) (1/20) (1/2)).fires
      = (playWithDelay initDelaySys 0 (1/5)).fires ++ [0 + 1/5] ∧
    (playWithDelay (playWithDelay initDelaySys 0 (1/5)) (1/20) (1/2)).pending
      = some ⟨max (1/20) (0 + 1/5), 1/2⟩ ∧
    (playWithDelay (playWithDelay initDelaySys 0 (1/5)) (1/20) (1/2)).player.m_delayCancelled
      = false :=
  c4_playWithDelay_joins_without_cancel (playWithDelay initDelaySys 0 (1/5))
    (1/20) (1/2) ⟨0, 1/5⟩ rfl

/-- A concrete load environment in which every load fails: both byte
loaders find nothing. -/
def failLoadEnv : LoadEnv where
  loadAssetData := fun _ => []
  loadFileData := fun _ => []
  decode := fun _ _ => none

/-- A player holding a previously loaded clip at path `old.ogg`. -/
def oldClipPlayer : Player :=
  { initPlayer with
      m_clipPath := "old.ogg"
      m_interleavedData := [1, 2]
      m_sampleRate := 44100
      m_channels := 1
      m_totalFrames := 2 }

/-- C6 fails on the code: `setClip` overwrites `m_clipPath` with the new
path *before* attempting the load, so a failed load leaves the stored
samples, sample rate, channel count and frame count untouched but not the
clip path. -/
theorem c6_counterexample :
    (setClip failLoadEnv oldClipPlayer "new.ogg").2 = false ∧
    (setClip failLoadEnv oldClipPlayer "new.ogg").1.m_clipPath = "new.ogg" ∧
    oldClipPlayer.m_clipPath = "old.ogg" ∧
    ("new.ogg" : String) ≠ "old.ogg" := by
  refine ⟨?_, ?_, rfl, by decide⟩
  · simp [setClip, loadAudioData, loadBytes, failLoadEnv]
  · simp [setClip, loadAudioData, loadBytes, failLoadEnv]

/-- C6 (amended): whenever `setClip` fails it leaves the previously loaded
clip data untouched — the stored samples, sample rate, channel count and
total frame count are unchanged — but the stored clip path has already been
overwritten with the new path. -/
theorem c6_setClip_failure_preserves_clip (env : LoadEnv) (p : Player) (path : String)
    (hfail : (setClip env p path).2 = false) :
    (setClip env p path).1.m_interleavedData = p.m_interleavedData ∧
    (setClip env p path).1.m_sampleRate = p.m_sampleRate ∧
    (setClip env p path).1.m_channels = p.m_channels ∧
    (setClip env p path).1.m_totalFrames = p.m_totalFrames ∧
    (setClip env p path).1.m_clipPath = path := by
  unfold setClip loadAudioData at hfail ⊢
  dsimp only at hfail ⊢
  split
  · exact ⟨rfl, rfl, rfl, rfl, rfl⟩
  · next h1 =>
    split
    · exact ⟨rfl, rfl, rfl, rfl, rfl⟩
    · next ad heq =>
      exfalso
      rw [if_neg h1, heq] at hfail
      simp at hfail

/-- Witness for the amended C6 at the failing concrete load. -/
theorem c6_setClip_failure_preserves_clip_witness :
    (setClip failLoadEnv oldClipPlayer "new.ogg").1.m_interleavedData
      = oldClipPlayer.m_interleavedData ∧
    (setClip failLoadEnv oldClipPlayer "new.ogg").1.m_sampleRate
      = oldClipPlayer.m_sampleRate ∧
    (setClip failLoadEnv oldClipPlayer "new.ogg").1.m_channels
      = oldClipPlayer.m_channels ∧
    (setClip failLoadEnv oldClipPlayer "new.ogg").1.m_totalFrames
      = oldClipPlayer.m_totalFrames ∧
    (setClip failLoadEnv oldClipPlayer "new.ogg").1.m_clipPath = "new.ogg" :=
  c6_setClip_failure_preserves_clip failLoadEnv oldClipPlayer "new.ogg"
    (by simp [setClip, loadAudioData, loadBytes, failLoadEnv])

/-- One call of the time-control surface: `SetCurrentTime(t)` or
`OffsetTime(d)`. -/
inductive TimeCall where
  | setTime (t : ℚ)
  | offset (d : ℚ)
deriving DecidableEq, Repr

/-- Apply one time-control call. -/
def applyTimeCall (p : Player) : TimeCall → Player
  | .setTime t => setCurrentTime p t
  | .offset d => offsetTime p d

/-- Apply a sequence of time-control calls in order. -/
def applyTimeCalls (p : Player) (calls : List TimeCall) : Player :=
  calls.foldl applyTimeCall p

/-- Time-control calls never touch the clip metadata, so the clip length is
invariant under them. -/
theorem getMusicLength_applyTimeCall (p : Player) (c : TimeCall) :
    getMusicLength (applyTimeCall p c) = getMusicLength p := by
  cases c <;> rfl

/-- A single time-control call clamps the position into `[0, musicLength]`
whenever the clip length is nonnegative. -/
theorem applyTimeCall_mem_range (p : Player) (c : TimeCall)
    (hlen : 0 ≤ getMusicLength p) :
    0 ≤ (applyTimeCall p c).m_currentTime ∧
    (applyTimeCall p c).m_currentTime ≤ getMusicLength p := by
  cases c <;>
    exact ⟨le_max_left 0 _, max_le hlen (min_le_right _ _)⟩

/-- C7: for a player with a loaded clip (positive sample rate, nonnegative
frame count), after any sequence of `setCurrentTime`/`offsetTime` calls with
arbitrary arguments — a nonempty sequence, or any sequence when the current
position already lies in range — `getCurrentTime` returns a value in
`[0, musicLength]`. -/
theorem c7_getCurrentTime_clamped (p : Player) (calls : List TimeCall)
    (hsr : 0 < p.m_sampleRate) (htf : 0 ≤ p.m_totalFrames)
    (hstart : calls ≠ [] ∨
      (0 ≤ p.m_currentTime ∧ p.m_currentTime ≤ getMusicLength p)) :
    0 ≤ getCurrentTime (applyTimeCalls p calls) ∧
    getCurrentTime (applyTimeCalls p calls) ≤ getMusicLength p := by
  have hlen : 0 ≤ getMusicLength p := by
    unfold getMusicLength
    positivity
  induction calls generalizing p with
  | nil =>
    rcases hstart with h | h
    · exact absurd rfl h
    · exact h
  | cons c cs ih =>
    have hstep : applyTimeCalls p (c :: cs) = applyTimeCalls (applyTimeCall p c) cs := rfl
    have hfields : (applyTimeCall p c).m_sampleRate = p.m_sampleRate ∧
        (applyTimeCall p c).m_totalFrames = p.m_totalFrames := by
      cases c <;> exact ⟨rfl, rfl⟩
    have hml := getMusicLength_applyTimeCall p c
    rw [hstep, ← hml]
    exact ih (applyTimeCall p c) (hfields.1 ▸ hsr) (hfields.2 ▸ htf)
      (Or.inr (hml ▸ applyTimeCall_mem_range p c hlen))
      (by rw [hml]; exact hlen)

/-- Witness for C7: a loaded mono clip, with a seek far past the end
followed by a negative offset past the start. -/
theorem c7_getCurrentTime_clamped_witness :
    0 ≤ getCurrentTime (applyTimeCalls oldClipPlayer [.setTime 50, .offset (-3)]) ∧
    getCurrentTime (applyTimeCalls oldClipPlayer [.setTime 50, .offset (-3)])
      ≤ getMusicLength oldClipPlayer :=
  c7_getCurrentTime_clamped oldClipPlayer [.setTime 50, .offset (-3)]
    (by decide) (by decide) (Or.inl (by decide))

/-- Bounds on the frame index the callback computes from the position:
with a loaded clip and `position ∈ [0, totalFrames/sampleRate]`, the
truncated frame index lies in `[0, totalFrames]`. -/
theorem currentFrame_bounds (p : Player) (htot : 0 < p.m_totalFrames)
    (h0 : 0 ≤ p.m_currentTime)
    (h1 : p.m_currentTime ≤ (p.m_totalFrames : ℚ) / (p.m_sampleRate : ℚ)) :
    0 ≤ cppTrunc (p.m_currentTime * (p.m_sampleRate : ℚ)) ∧
    cppTrunc (p.m_currentTime * (p.m_sampleRate : ℚ)) ≤ p.m_totalFrames := by
  rcases lt_trichotomy ((p.m_sampleRate : ℤ) : ℚ) 0 with hr | hr | hr
  · exfalso
    have hneg : (p.m_totalFrames : ℚ) / (p.m_sampleRate : ℚ) < 0 :=
      div_neg_of_pos_of_neg (by exact_mod_cast htot) hr
    linarith
  · rw [hr, mul_zero]
    refine ⟨?_, ?_⟩ <;> simp [cppTrunc, htot.le]
  · have hq0 : 0 ≤ p.m_currentTime * (p.m_sampleRate : ℚ) := mul_nonneg h0 hr.le
    rw [cppTrunc_eq_floor hq0]
    refine ⟨Int.floor_nonneg.mpr hq0, ?_⟩
    have hle : p.m_currentTime * (p.m_sampleRate : ℚ) ≤ (p.m_totalFrames : ℚ) :=
      (le_div_iff₀ hr).mp h1
    calc ⌊p.m_currentTime * (p.m_sampleRate : ℚ)⌋ ≤ ⌊((p.m_totalFrames : ℤ) : ℚ)⌋ :=
        Int.floor_le_floor hle
    _ = p.m_totalFrames := Int.floor_intCast _

/-- All source indices of the main copy loop are in `[0, totalFrames * channels)`
when the starting frame is in range and at most the remaining frames are copied. -/
theorem mem_copyIndices_bounds {channels outputChannels currentFrame framesToCopy totalFrames : ℤ}
    (hch : 1 ≤ channels) (hcur0 : 0 ≤ currentFrame)
    (hcopy : framesToCopy ≤ totalFrames - currentFrame) :
    ∀ idx ∈ copyIndices channels outputChannels currentFrame framesToCopy,
      0 ≤ idx ∧ idx < totalFrames * channels := by
  intro idx hidx
  unfold copyIndices at hidx
  simp only [List.mem_flatMap, List.mem_map, List.mem_range] at hidx
  obtain ⟨i, hi, c, hc, rfl⟩ := hidx
  have hiz : (i : ℤ) < framesToCopy := by omega
  have htm0 : 0 ≤ (c : ℤ).tmod channels := Int.tmod_nonneg channels (Int.natCast_nonneg c)
  have htm1 : (c : ℤ).tmod channels < channels := Int.tmod_lt_of_pos _ (by omega)
  constructor
  · have hmul : 0 ≤ (currentFrame + (i : ℤ)) * channels :=
      mul_nonneg (by omega) (by omega)
    omega
  · have hfr : currentFrame + (i : ℤ) ≤ totalFrames - 1 := by omega
    have hmul : (currentFrame + (i : ℤ)) * channels ≤ (totalFrames - 1) * channels :=
      mul_le_mul_of_nonneg_right hfr (by omega)
    have hring : (totalFrames - 1) * channels + channels = totalFrames * channels := by ring
    linarith

/-- All source indices of the loop-wrap copy are in `[0, totalFrames * channels)`
as soon as the clip has at least one frame and one channel. -/
theorem mem_loopIndices_bounds {totalFrames channels outputChannels remainingFrames : ℤ}
    (hch : 1 ≤ channels) (htot : 0 < totalFrames) :
    ∀ idx ∈ loopIndices totalFrames channels outputChannels remainingFrames,
      0 ≤ idx ∧ idx < totalFrames * channels := by
  intro idx hidx
  unfold loopIndices at hidx
  simp only [List.mem_flatMap, List.mem_map, List.mem_range] at hidx
  obtain ⟨i, hi, c, hc, rfl⟩ := hidx
  have h1 : 0 ≤ (i : ℤ).tmod totalFrames := Int.tmod_nonneg totalFrames (Int.natCast_nonneg i)
  have h2 : (i : ℤ).tmod totalFrames < totalFrames := Int.tmod_lt_of_pos _ htot
  have h3 : 0 ≤ (c : ℤ).tmod channels := Int.tmod_nonneg channels (Int.natCast_nonneg c)
  have h4 : (c : ℤ).tmod channels < channels := Int.tmod_lt_of_pos _ (by omega)
  constructor
  · have hmul : 0 ≤ (i : ℤ).tmod totalFrames * channels := mul_nonneg h1 (by omega)
    omega
  · have hmul : (i : ℤ).tmod totalFrames * channels ≤ (totalFrames - 1) * channels :=
      mul_le_mul_of_nonneg_right (by omega) (by omega)
    have hring : (totalFrames - 1) * channels + channels = totalFrames * channels := by ring
    linarith

/-- C9: in the Playing state with a non-empty interleaved buffer whose
length is `totalFrames × channels`, at least one channel, and a position in
`[0, totalFrames/sampleRate]`, the clip has at least one frame (so the
`i % m_totalFrames` in the loop branch never divides by zero) and every
index at which `onAudioReady` reads the interleaved sample array is within
the array's bounds. -/
theorem c9_callback_reads_in_bounds (p : Player) (streamChannels numFrames : ℤ)
    (hplay : p.m_state = .playing)
    (hne : p.m_interleavedData ≠ [])
    (hlen : (p.m_interleavedData.length : ℤ) = p.m_totalFrames * p.m_channels)
    (hch : 1 ≤ p.m_channels)
    (h0 : 0 ≤ p.m_currentTime)
    (h1 : p.m_currentTime ≤ (p.m_totalFrames : ℚ) / (p.m_sampleRate : ℚ)) :
    0 < p.m_totalFrames ∧
    ∀ idx ∈ audioReadyIndices streamChannels numFrames p,
      0 ≤ idx ∧ idx < (p.m_interleavedData.length : ℤ) := by
  have hlen1 : 0 < p.m_interleavedData.length := List.length_pos.mpr hne
  have htot : 0 < p.m_totalFrames := by
    rcases le_or_lt p.m_totalFrames 0 with hcon | hcon
    · exfalso
      have : p.m_totalFrames * p.m_channels ≤ 0 * p.m_channels :=
        mul_le_mul_of_nonneg_right hcon (by omega)
      simp at this
      omega
    · exact hcon
  refine ⟨htot, ?_⟩
  obtain ⟨hcur0, hcur1⟩ := currentFrame_bounds p htot h0 h1
  have hguard : ¬(p.m_state ≠ AudioState.playing ∨ p.m_interleavedData.isEmpty = true) := by
    simp [hplay, hne]
  intro idx hidx
  rw [hlen]
  unfold audioReadyIndices at hidx
  rw [if_neg hguard] at hidx
  dsimp only at hidx
  have hcopied : ∀ j ∈ (if 0 < min numFrames
        (p.m_totalFrames - cppTrunc (p.m_currentTime * (p.m_sampleRate : ℚ))) then
          copyIndices p.m_channels streamChannels
            (cppTrunc (p.m_currentTime * (p.m_sampleRate : ℚ)))
            (min numFrames
              (p.m_totalFrames - cppTrunc (p.m_currentTime * (p.m_sampleRate : ℚ))))
        else []),
      0 ≤ j ∧ j < p.m_totalFrames * p.m_channels := by
    intro j hj
    split at hj
    · exact mem_copyIndices_bounds hch hcur0 (min_le_right _ _) j hj
    · simp at hj
  split at hidx
  · split at hidx
    · rcases List.mem_append.mp hidx with h | h
      · exact hcopied idx h
      · exact mem_loopIndices_bounds hch htot idx h
    · exact hcopied idx hidx
  · exact hcopied idx hidx

/-- Witness for C9 at a concrete loaded player: the two-frame mono clip of
`oldClipPlayer`, playing at position 0, with a 512-frame stereo callback. -/
theorem c9_callback_reads_in_bounds_witness :
    0 < { oldClipPlayer with m_state := .playing : Player }.m_totalFrames ∧
    ∀ idx ∈ audioReadyIndices 2 512 { oldClipPlayer with m_state := .playing : Player },
      0 ≤ idx ∧
      idx < ({ oldClipPlayer with m_state := .playing : Player }.m_interleavedData.length : ℤ) :=
  c9_callback_reads_in_bounds { oldClipPlayer with m_state := .playing } 2 512
    rfl (by simp [oldClipPlayer, initPlayer]) (by decide) (by decide) (by decide)
    (by norm_num [oldClipPlayer, initPlayer])

/-- `getD` across an append, at an offset past the first part. -/
theorem getD_append_offset (l1 l2 : List ℚ) (k : ℕ) :
    (l1 ++ l2).getD (l1.length + k) 0 = l2.getD k 0 := by
  rw [List.getD_eq_getElem?_getD, List.getElem?_append_right (Nat.le_add_right _ _),
    Nat.add_sub_cancel_left, List.getD_eq_getElem?_getD]

/-- Truncating `(a / b) * b` recovers `a` for integer `a`, `b` with `b ≠ 0`. -/
theorem cppTrunc_div_mul_cancel (a b : ℤ) (ha : 0 ≤ a) (hb : (b : ℚ) ≠ 0) :
    cppTrunc (((a : ℚ) / (b : ℚ)) * (b : ℚ)) = a := by
  rw [div_mul_cancel₀ _ hb, cppTrunc_eq_floor (by exact_mod_cast ha), Int.floor_intCast]

/-- A callback that stays strictly inside the clip: when at least
`numFrames` frames remain past the current frame, `onAudioReady` copies a
full buffer, advances the position by `numFrames / streamSampleRate`, and
continues. -/
theorem onAudioReady_full_copy (p : Player) (streamSR streamCh numFrames cur : ℤ)
    (hplay : p.m_state = .playing) (hne : p.m_interleavedData ≠ [])
    (hcur : cppTrunc (p.m_currentTime * (p.m_sampleRate : ℚ)) = cur)
    (hfull : numFrames ≤ p.m_totalFrames - cur) :
    onAudioReady streamSR streamCh numFrames p =
      ⟨{ p with m_currentTime := p.m_currentTime + (numFrames : ℚ) / (streamSR : ℚ) },
        .Continue,
        if 0 < numFrames then
          copyFrames p.m_interleavedData p.m_volume p.m_channels streamCh cur numFrames
        else []⟩ := by
  have hguard : ¬(p.m_state ≠ AudioState.playing ∨ p.m_interleavedData.isEmpty = true) := by
    simp [hplay, hne]
  unfold onAudioReady
  rw [if_neg hguard]
  dsimp only
  rw [hcur, min_eq_left hfull, if_neg (lt_irrefl numFrames)]

/-- One 512-frame callback of the concrete C1 scenario, while at least 512
frames remain: the position advances by exactly `512/48000` seconds. -/
theorem scenario_step (data : List ℚ) (hne : data ≠ []) (k : ℕ) (hk : k ≤ 92) :
    stepCB { scenarioPlayer data with m_currentTime := (512 * (k : ℚ)) / 48000 }
      = { scenarioPlayer data with m_currentTime := (512 * ((k : ℚ) + 1)) / 48000 } := by
  have hkz : (k : ℤ) ≤ 92 := by exact_mod_cast hk
  have hcur : cppTrunc
      (({ scenarioPlayer data with m_currentTime := (512 * (k : ℚ)) / 48000 : Player }).m_currentTime
        * ((({ scenarioPlayer data with m_currentTime := (512 * (k : ℚ)) / 48000 : Player }).m_sampleRate : ℤ) : ℚ))
      = (512 * k : ℤ) := by
    show cppTrunc ((512 * (k : ℚ)) / 48000 * ((48000 : ℤ) : ℚ)) = (512 * k : ℤ)
    have h1 : (512 * (k : ℚ)) / 48000 = (((512 * k : ℤ) : ℚ)) / ((48000 : ℤ) : ℚ) := by
      push_cast
      ring
    rw [h1]
    exact cppTrunc_div_mul_cancel (512 * k) 48000 (by positivity) (by norm_num)
  have hfull : (512 : ℤ) ≤
      ({ scenarioPlayer data with m_currentTime := (512 * (k : ℚ)) / 48000 : Player }).m_totalFrames
        - (512 * k : ℤ) := by
    show (512 : ℤ) ≤ 48000 - 512 * k
    omega
  unfold stepCB
  rw [onAudioReady_full_copy _ 48000 1 512 (512 * k) rfl
    (by simpa [scenarioPlayer, initPlayer] using hne) hcur hfull]
  show ({ scenarioPlayer data with
      m_currentTime := (512 * (k : ℚ)) / 48000 + ((512 : ℤ) : ℚ) / ((48000 : ℤ) : ℚ) : Player })
    = { scenarioPlayer data with m_currentTime := (512 * ((k : ℚ) + 1)) / 48000 }
  have harith : (512 * (k : ℚ)) / 48000 + ((512 : ℤ) : ℚ) / ((48000 : ℤ) : ℚ)
      = (512 * ((k : ℚ) + 1)) / 48000 := by
    push_cast
    ring
  rw [harith]

/-- After `k ≤ 93` scenario callbacks the position is exactly
`512·k / 48000` seconds and the player is otherwise unchanged. -/
theorem scenario_iterate (data : List ℚ) (hne : data ≠ []) (k : ℕ) (hk : k ≤ 93) :
    stepN k (scenarioPlayer data)
      = { scenarioPlayer data with m_currentTime := (512 * (k : ℚ)) / 48000 } := by
  induction k with
  | zero =>
    show scenarioPlayer data = _
    have h0 : (512 * ((0 : ℕ) : ℚ)) / 48000 = 0 := by norm_num
    rw [h0]
    rfl
  | succ k ih =>
    show stepCB (stepN k (scenarioPlayer data)) = _
    rw [ih (by omega), scenario_step data hne k (by omega)]
    have hcast : (((k + 1 : ℕ)) : ℚ) = (k : ℚ) + 1 := by push_cast; ring
    rw [hcast]

/-- C2: in the Playing state with a loaded clip and loop enabled, when
`toCopy = min(outputFrames, totalFrames − cur) < outputFrames`, the callback
returns "continue", stays Playing, sets the position to
`(outputFrames − toCopy)/sampleRate`, and fills the wrap region so that
frame `i`, channel `c` of it carries the source sample at frame
`i mod totalFrames`, channel `c mod sourceChannels`, scaled by the volume. -/
theorem c2_loop_wrap_behavior (p : Player) (streamChannels numFrames cur toCopy : ℤ)
    (hplay : p.m_state = .playing)
    (hne : p.m_interleavedData ≠ [])
    (hloop : p.m_loop = true)
    (hcur : cur = cppTrunc (p.m_currentTime * (p.m_sampleRate : ℚ)))
    (htc : toCopy = min numFrames (p.m_totalFrames - cur))
    (hcut : toCopy < numFrames) :
    (onAudioReady p.m_sampleRate streamChannels numFrames p).result = .Continue ∧
    (onAudioReady p.m_sampleRate streamChannels numFrames p).player.m_state = .playing ∧
    (onAudioReady p.m_sampleRate streamChannels numFrames p).player.m_currentTime
      = ((numFrames - toCopy : ℤ) : ℚ) / (p.m_sampleRate : ℚ) ∧
    (onAudioReady p.m_sampleRate streamChannels numFrames p).output.length
      = toCopy.toNat * streamChannels.toNat + (numFrames - toCopy).toNat * streamChannels.toNat ∧
    ∀ i c : ℕ, i < (numFrames - toCopy).toNat → c < streamChannels.toNat →
      (onAudioReady p.m_sampleRate streamChannels numFrames p).output.getD
          (toCopy.toNat * streamChannels.toNat + (i * streamChannels.toNat + c)) 0
        = sourceSample p.m_interleavedData p.m_channels
            ((i : ℤ).tmod p.m_totalFrames) ((c : ℤ).tmod p.m_channels) * p.m_volume := by
  have hguard : ¬(p.m_state ≠ AudioState.playing ∨ p.m_interleavedData.isEmpty = true) := by
    simp [hplay, hne]
  have hres : onAudioReady p.m_sampleRate streamChannels numFrames p =
      ⟨{ p with m_currentTime := ((numFrames - toCopy : ℤ) : ℚ) / (p.m_sampleRate : ℚ) },
        .Continue,
        (if 0 < toCopy then
          copyFrames p.m_interleavedData p.m_volume p.m_channels streamChannels cur toCopy
        else [])
          ++ copyLoopFrames p.m_interleavedData p.m_volume p.m_totalFrames p.m_channels
              streamChannels (numFrames - toCopy)⟩ := by
    unfold onAudioReady
    rw [if_neg hguard]
    dsimp only
    rw [← hcur, ← htc, if_pos hcut, if_pos hloop]
  rw [hres]
  have hcoplen : (if 0 < toCopy then
      copyFrames p.m_interleavedData p.m_volume p.m_channels streamChannels cur toCopy
    else []).length = toCopy.toNat * streamChannels.toNat := by
    split
    · exact length_copyFrames _ _ _ _ _ _
    · next hneg =>
      have h0 : toCopy.toNat = 0 := by omega
      simp [h0]
  refine ⟨rfl, hplay, rfl, ?_, ?_⟩
  · show ((if 0 < toCopy then _ else []) ++ _).length = _
    rw [List.length_append, hcoplen, length_copyLoopFrames]
  · intro i c hi hc
    show ((if 0 < toCopy then _ else []) ++ _).getD _ 0 = _
    rw [← hcoplen, getD_append_offset]
    unfold copyLoopFrames
    rw [getD_range_flatMap_map _ _ _ i c hi hc]
    rfl

/-- Witness for C2: the two-frame mono clip, playing with loop enabled at
position 0; a 512-frame callback wraps after 2 copied frames. -/
theorem c2_loop_wrap_behavior_witness :
    (onAudioReady
        { oldClipPlayer with m_state := .playing, m_loop := true : Player }.m_sampleRate 2 512
        { oldClipPlayer with m_state := .playing, m_loop := true }).result = .Continue ∧
    (onAudioReady
        { oldClipPlayer with m_state := .playing, m_loop := true : Player }.m_sampleRate 2 512
        { oldClipPlayer with m_state := .playing, m_loop := true }).player.m_state = .playing ∧
    (onAudioReady
        { oldClipPlayer with m_state := .playing, m_loop := true : Player }.m_sampleRate 2 512
        { oldClipPlayer with m_state := .playing, m_loop := true }).player.m_currentTime
      = ((512 - 2 : ℤ) : ℚ)
          / ({ oldClipPlayer with m_state := .playing, m_loop := true : Player }.m_sampleRate : ℚ) ∧
    (onAudioReady
        { oldClipPlayer with m_state := .playing, m_loop := true : Player }.m_sampleRate 2 512
        { oldClipPlayer with m_state := .playing, m_loop := true }).output.length
      = (2 : ℤ).toNat * (2 : ℤ).toNat + (512 - 2 : ℤ).toNat * (2 : ℤ).toNat ∧
    ∀ i c : ℕ, i < (512 - 2 : ℤ).toNat → c < (2 : ℤ).toNat →
      (onAudioReady
          { oldClipPlayer with m_state := .playing, m_loop := true : Player }.m_sampleRate 2 512
          { oldClipPlayer with m_state := .playing, m_loop := true }).output.getD
          ((2 : ℤ).toNat * (2 : ℤ).toNat + (i * (2 : ℤ).toNat + c)) 0
        = sourceSample
            { oldClipPlayer with m_state := .playing, m_loop := true : Player }.m_interleavedData
            { oldClipPlayer with m_state := .playing, m_loop := true : Player }.m_channels
            ((i : ℤ).tmod
              { oldClipPlayer with m_state := .playing, m_loop := true : Player }.m_totalFrames)
            ((c : ℤ).tmod
              { oldClipPlayer with m_state := .playing, m_loop := true : Player }.m_channels)
          * { oldClipPlayer with m_state := .playing, m_loop := true : Player }.m_volume :=
  c2_loop_wrap_behavior { oldClipPlayer with m_state := .playing, m_loop := true } 2 512 0 2
    rfl (by simp [oldClipPlayer, initPlayer]) rfl
    (by show (0 : ℤ) = cppTrunc (0 * ((44100 : ℤ) : ℚ)); simp [cppTrunc])
    (by decide) (by decide)

/-- C1: in the Playing state with a loaded clip and loop disabled, when
`toCopy = min(outputFrames, totalFrames − floor(position·sampleRate))` is
less than `outputFrames`, the callback emits the copied frames followed by
`outputFrames − toCopy` frames of silence, advances the position by the full
`outputFrames/sampleRate`, and — exactly when the advanced position reaches
the clip length — moves to Stopped and returns the "stop" signal, otherwise
returning "continue".  In particular, for the 48000-frame mono clip at
48000 Hz with 512-frame callbacks, volume 1 and loop disabled, the position
after 93 callbacks is `47616/48000`, and the 94th callback copies 384 real
frames, then 128 silence frames, moves to Stopped and returns "stop". -/
theorem c1_nonloop_end_behavior :
    (∀ (p : Player) (streamChannels numFrames cur toCopy : ℤ),
      p.m_state = .playing → p.m_interleavedData ≠ [] → p.m_loop = false →
      0 ≤ p.m_currentTime → 0 ≤ p.m_sampleRate →
      cur = ⌊p.m_currentTime * (p.m_sampleRate : ℚ)⌋ →
      toCopy = min numFrames (p.m_totalFrames - cur) →
      toCopy < numFrames →
      ((onAudioReady p.m_sampleRate streamChannels numFrames p).output
          = (if 0 < toCopy then
              copyFrames p.m_interleavedData p.m_volume p.m_channels streamChannels cur toCopy
            else []) ++ generateSilence (numFrames - toCopy) streamChannels ∧
        (onAudioReady p.m_sampleRate streamChannels numFrames p).player.m_currentTime
          = p.m_currentTime + (numFrames : ℚ) / (p.m_sampleRate : ℚ) ∧
        (if getMusicLength p ≤ p.m_currentTime + (numFrames : ℚ) / (p.m_sampleRate : ℚ) then
          (onAudioReady p.m_sampleRate streamChannels numFrames p).player.m_state = .stopped ∧
          (onAudioReady p.m_sampleRate streamChannels numFrames p).result = .Stop
        else
          (onAudioReady p.m_sampleRate streamChannels numFrames p).player.m_state = .playing ∧
          (onAudioReady p.m_sampleRate streamChannels numFrames p).result = .Continue))) ∧
    (∀ data : List ℚ, data ≠ [] → data.length = 48000 →
      (stepN 93 (scenarioPlayer data)).m_currentTime = 47616 / 48000 ∧
      (onAudioReady 48000 1 512 (stepN 93 (scenarioPlayer data))).output
          = copyFrames data 1 1 1 47616 384 ++ generateSilence 128 1 ∧
      (copyFrames data 1 1 1 47616 384).length = 384 ∧
      (generateSilence 128 1).length = 128 ∧
      (onAudioReady 48000 1 512 (stepN 93 (scenarioPlayer data))).player.m_state = .stopped ∧
      (onAudioReady 48000 1 512 (stepN 93 (scenarioPlayer data))).result = .Stop) := by
  have general : ∀ (p : Player) (streamChannels numFrames cur toCopy : ℤ),
      p.m_state = .playing → p.m_interleavedData ≠ [] → p.m_loop = false →
      0 ≤ p.m_currentTime → 0 ≤ p.m_sampleRate →
      cur = ⌊p.m_currentTime * (p.m_sampleRate : ℚ)⌋ →
      toCopy = min numFrames (p.m_totalFrames - cur) →
      toCopy < numFrames →
      ((onAudioReady p.m_sampleRate streamChannels numFrames p).output
          = (if 0 < toCopy then
              copyFrames p.m_interleavedData p.m_volume p.m_channels streamChannels cur toCopy
            else []) ++ generateSilence (numFrames - toCopy) streamChannels ∧
        (onAudioReady p.m_sampleRate streamChannels numFrames p).player.m_currentTime
          = p.m_currentTime + (numFrames : ℚ) / (p.m_sampleRate : ℚ) ∧
        (if getMusicLength p ≤ p.m_currentTime + (numFrames : ℚ) / (p.m_sampleRate : ℚ) then
          (onAudioReady p.m_sampleRate streamChannels numFrames p).player.m_state = .stopped ∧
          (onAudioReady p.m_sampleRate streamChannels numFrames p).result = .Stop
        else
          (onAudioReady p.m_sampleRate streamChannels numFrames p).player.m_state = .playing ∧
          (onAudioReady p.m_sampleRate streamChannels numFrames p).result = .Continue)) := by
    intro p streamCh nf cur toCopy hplay hne hloop ht0 hsr hcur htc hcut
    have hguard : ¬(p.m_state ≠ AudioState.playing ∨ p.m_interleavedData.isEmpty = true) := by
      simp [hplay, hne]
    have hq0 : 0 ≤ p.m_currentTime * (p.m_sampleRate : ℚ) := by
      have hr : (0 : ℚ) ≤ (p.m_sampleRate : ℚ) := by exact_mod_cast hsr
      exact mul_nonneg ht0 hr
    have hcur' : cppTrunc (p.m_currentTime * (p.m_sampleRate : ℚ)) = cur := by
      rw [cppTrunc_eq_floor hq0, hcur]
    have hloop' : ¬(p.m_loop = true) := by simp [hloop]
    unfold onAudioReady
    rw [if_neg hguard]
    dsimp only
    rw [hcur', ← htc, if_pos hcut, if_neg hloop']
    simp only [getMusicLength]
    by_cases hend : (p.m_totalFrames : ℚ) / (p.m_sampleRate : ℚ)
        ≤ p.m_currentTime + (nf : ℚ) / (p.m_sampleRate : ℚ)
    · simp only [if_pos hend]
      simp [hplay]
    · simp only [if_neg hend]
      simp [hplay]
  refine ⟨general, ?_⟩
  intro data hne hlen
  have hiter := scenario_iterate data hne 93 (by omega)
  have ht93 : (512 * ((93 : ℕ) : ℚ)) / 48000 = 47616 / 48000 := by norm_num
  rw [ht93] at hiter
  have hne' : ({ scenarioPlayer data with m_currentTime := (47616 : ℚ) / 48000 : Player }).m_interleavedData ≠ [] := by
    simpa [scenarioPlayer, initPlayer] using hne
  have hcurEq : (47616 : ℤ) =
      ⌊({ scenarioPlayer data with m_currentTime := (47616 : ℚ) / 48000 : Player }).m_currentTime
        * (({ scenarioPlayer data with m_currentTime := (47616 : ℚ) / 48000 : Player }).m_sampleRate : ℚ)⌋ := by
    show (47616 : ℤ) = ⌊(47616 : ℚ) / 48000 * ((48000 : ℤ) : ℚ)⌋
    have hq : (47616 : ℚ) / 48000 = ((47616 : ℤ) : ℚ) / ((48000 : ℤ) : ℚ) := by norm_num
    rw [hq, div_mul_cancel₀ _ (by norm_num : ((48000 : ℤ) : ℚ) ≠ 0), Int.floor_intCast]
  have htcEq : (384 : ℤ) = min 512
      (({ scenarioPlayer data with m_currentTime := (47616 : ℚ) / 48000 : Player }).m_totalFrames
        - 47616) := by
    show (384 : ℤ) = min 512 (48000 - 47616)
    decide
  obtain ⟨hout, htime, hcase⟩ :=
    general { scenarioPlayer data with m_currentTime := (47616 : ℚ) / 48000 } 1 512 47616 384
      rfl hne' rfl (by show (0 : ℚ) ≤ 47616 / 48000; norm_num)
      (by show (0 : ℤ) ≤ 48000; norm_num) hcurEq htcEq (by decide)
  rw [if_pos (by decide : (0 : ℤ) < 384)] at hout
  have h128 : (512 - 384 : ℤ) = 128 := by decide
  rw [h128] at hout
  have hcond : getMusicLength
        { scenarioPlayer data with m_currentTime := (47616 : ℚ) / 48000 : Player }
      ≤ ({ scenarioPlayer data with m_currentTime := (47616 : ℚ) / 48000 : Player }).m_currentTime
        + ((512 : ℤ) : ℚ)
          / (({ scenarioPlayer data with m_currentTime := (47616 : ℚ) / 48000 : Player }).m_sampleRate : ℚ) := by
    show ((48000 : ℤ) : ℚ) / ((48000 : ℤ) : ℚ) ≤ (47616 : ℚ) / 48000 + ((512 : ℤ) : ℚ) / ((48000 : ℤ) : ℚ)
    push_cast
    norm_num
  rw [if_pos hcond] at hcase
  refine ⟨?_, ?_, ?_, ?_, ?_, ?_⟩
  · rw [hiter]
  · rw [hiter]
    exact hout
  · rw [length_copyFrames]
    decide
  · rw [length_generateSilence]
    decide
  · rw [hiter]
    exact hcase.1
  · rw [hiter]
    exact hcase.2

/-- Witness for C1 at a concrete all-zero 48000-frame clip: the 94th
callback ends playback exactly as the claim's scenario states. -/
theorem c1_nonloop_end_behavior_witness :
    (stepN 93 (scenarioPlayer (List.replicate 48000 (0 : ℚ)))).m_currentTime = 47616 / 48000 ∧
    (onAudioReady 48000 1 512 (stepN 93 (scenarioPlayer (List.replicate 48000 (0 : ℚ))))).output
        = copyFrames (List.replicate 48000 (0 : ℚ)) 1 1 1 47616 384 ++ generateSilence 128 1 ∧
    (copyFrames (List.replicate 48000 (0 : ℚ)) 1 1 1 47616 384).length = 384 ∧
    (generateSilence 128 1).length = 128 ∧
    (onAudioReady 48000 1 512
        (stepN 93 (scenarioPlayer (List.replicate 48000 (0 : ℚ))))).player.m_state = .stopped ∧
    (onAudioReady 48000 1 512
        (stepN 93 (scenarioPlayer (List.replicate 48000 (0 : ℚ))))).result = .Stop :=
  c1_nonloop_end_behavior.2 (List.replicate 48000 (0 : ℚ))
    (List.ne_nil_of_length_pos (by rw [List.length_replicate]; omega))
    (List.length_replicate _ _)

end OboeWrapper
